import Mathlib

/-!
Verification of the MedAI backend service (`app.py`).

The service is a thin HTTP layer: a startup phase that configures an external
generative-language client and initializes a model handle by trying a fixed
list of candidate model names, and a handful of request handlers.  We embed
the startup phase and the handlers as pure Lean functions.  External,
per-request effects (the parsed JSON body, the upstream completion call, the
clock) are passed in as explicit parameters; exceptions are modelled with
`Except`.
-/

/-- JSON values, as produced by parsing a request body.  Numbers are modelled
as rationals (Python distinguishes int/float; no handler branches on that
distinction). -/
inductive Json where
  | null : Json
  | bool (b : Bool) : Json
  | num (q : ℚ) : Json
  | str (s : String) : Json
  | arr (elems : List Json) : Json
  | obj (kvs : List (String × Json)) : Json

/-- Python truthiness of a JSON-decoded value (`if not data`): None, False,
0, the empty string, the empty list and the empty dict are falsy. -/
def Json.truthy : Json → Bool
  | .null => false
  | .bool b => b
  | .num q => decide (q ≠ 0)
  | .str s => s ≠ ""
  | .arr elems => match elems with | [] => false | _ :: _ => true
  | .obj kvs => match kvs with | [] => false | _ :: _ => true

/-- The Python type name of a JSON-decoded value, as it appears in
`AttributeError` messages. -/
def Json.typeName : Json → String
  | .null => "NoneType"
  | .bool _ => "bool"
  | .num _ => "int"
  | .str _ => "str"
  | .arr _ => "list"
  | .obj _ => "dict"

/-- Is this JSON value a string? -/
def Json.isStr : Json → Bool
  | .str _ => true
  | _ => false

/-- Field lookup on a JSON object (`none` for non-objects or missing keys). -/
def Json.field (j : Json) (k : String) : Option Json :=
  match j with
  | .obj kvs => kvs.lookup k
  | _ => none

/-- A raised Python exception, reduced to its `str(e)` text: the only part of
an exception the handlers observe. -/
structure PyError where
  msg : String

/-- Python string slicing `s[:100]`: the first 100 characters (code points). -/
def pySlice100 (s : String) : String := String.mk (s.data.take 100)

/-- `data.get(k, d)`: dictionary lookup with a default.  On a non-dict value
the attribute access itself raises `AttributeError`. -/
def dictGet (data : Json) (k : String) (d : Json) : Except PyError Json :=
  match data with
  | .obj kvs => .ok ((kvs.lookup k).getD d)
  | _ => .error ⟨"'" ++ data.typeName ++ "' object has no attribute 'get'"⟩

/-- Python `str.strip()` with no argument: remove leading and trailing
whitespace characters. -/
def stripStr (s : String) : String :=
  String.mk (((s.data.dropWhile Char.isWhitespace).reverse.dropWhile
    Char.isWhitespace).reverse)

/-- `v.strip()`: whitespace trimming on a string; on any non-string value the
attribute access raises `AttributeError`. -/
def pyStrip (j : Json) : Except PyError String :=
  match j with
  | .str s => .ok (stripStr s)
  | _ => .error ⟨"'" ++ j.typeName ++ "' object has no attribute 'strip'"⟩

/-- Outcome of one upstream completion call (`model.generate_content`):
either it raises, or it returns a response object whose `.text` payload is
`some t` (a string) or `none` (a falsy response / missing text). -/
inductive GenResult where
  | raised (msg : String) : GenResult
  | returned (text : Option String) : GenResult

/-- An initialized model handle: its reported name and the behaviour of its
completion call, prompt by prompt. -/
structure GenModel where
  model_name : String
  generate : String → GenResult

/-- HTTP methods routed to the AI endpoint. -/
inductive Method where
  | POST : Method
  | OPTIONS : Method

/-- An HTTP response: status code and JSON body. -/
structure HttpResponse where
  status : Nat
  body : Json

/-- Result of one run of the AI handler: the response, plus the list of
prompts actually sent upstream during the run (the observable side effect). -/
structure HandlerResult where
  resp : HttpResponse
  upstreamCalls : List String

/-! ## Startup: API key and model initialization -/

/-- The fixed ordered candidate list of model names (`models_to_try`). -/
def models_to_try : List String :=
  ["gemini-2.0-flash-exp", "gemini-1.5-pro", "gemini-1.5-flash", "gemini-pro"]

/-- Python truthiness of `os.getenv` output (`if not GEMINI_API_KEY`): falsy
when the variable is absent or set to the empty string. -/
def keyTruthy : Option String → Bool
  | none => false
  | some s => s ≠ ""

/-- Process-wide state established by the startup code: whether
`genai.configure` was called, whether the missing-key error was logged, the
resulting model handle, and which candidate names were attempted (a
`Trying model` log line is emitted for each). -/
structure StartupState where
  configured : Bool
  keyErrorLogged : Bool
  model : Option GenModel
  attempted : List String

/-- The fallback loop over candidate names: construct each in order
(`genai.GenerativeModel`, which may raise), stop at the first success.
Returns the handle (if any) and the list of attempted names. -/
def initLoop (construct : String → Except String GenModel) :
    List String → Option GenModel × List String
  | [] => (none, [])
  | n :: rest =>
    match construct n with
    | .ok h => (some h, [n])
    | .error _ =>
      let r := initLoop construct rest
      (r.1, n :: r.2)

/-- The whole startup phase of `app.py` (lines 28-60): read the key, call
`genai.configure` only when the key is truthy (otherwise log an error), then
run the candidate loop.  The loop is outside the key check, so it runs
whether or not a key is present; `construct` abstracts the behaviour of the
`genai.GenerativeModel` constructor. -/
def startup (key : Option String) (construct : String → Except String GenModel) :
    StartupState :=
  { configured := keyTruthy key
    keyErrorLogged := !keyTruthy key
    model := (initLoop construct models_to_try).1
    attempted := (initLoop construct models_to_try).2 }

/-! ## Request handlers -/

/-- The health endpoint (`/api/health`).  `gemini_configured` reports
`GEMINI_API_KEY is not None`; the model label is the handle's name, or
"Unknown" when no handle was initialized. -/
def health_check (key : Option String) (model : Option GenModel) (now : String) :
    HttpResponse :=
  let model_name := match model with
    | none => "Unknown"
    | some m => m.model_name
  ⟨200, .obj [("status", .str "ok"), ("timestamp", .str now),
              ("gemini_configured", .bool key.isSome), ("model", .str model_name)]⟩

/-- The fixed system prompt of the AI endpoint, verbatim. -/
def system_prompt : String := "You are MedAI Pro, an AI health assistant. Provide CONCISE, PRECISE health advice.

RESPONSE FORMAT (IMPORTANT - Follow exactly):
1. **Symptoms Analysis**: 2-3 sentences explaining what the symptoms indicate
2. **Possible Causes**: List 2-3 most likely causes (bullet points)
3. **Suggested Home Care**: 2-3 quick remedies
4. **Suggested Medicines**: 
   - Fever: Paracetamol/Ibuprofen
   - Cough: Dextromethorphan/Honey
   - Headache: Aspirin/Ibuprofen
   - Nausea: Ginger/Peppermint
   - Diarrhea: Loperamide/Electrolytes
   - Pain: Ibuprofen/Paracetamol
5. **When to See Doctor**: If symptoms persist >7 days or worsen

CRITICAL RULES:
- Be VERY BRIEF (max 150 words total)
- Use bullet points, not paragraphs
- Include specific medicine names and dosages if applicable
- NO lengthy explanations
- Focus on practical advice only
- Always add: ⚠️ This is NOT professional medical advice

Example response format:
**Symptoms Analysis**: You have gastroenteritis. Common viral infection causing vomiting.

**Likely Causes**:
- Viral gastroenteritis
- Food poisoning
- Bacterial infection

**Home Care**:
- Rest and stay hydrated
- Eat light foods (rice, toast)
- Ginger tea helps

**Medicines**:
- Metoclopramide 10mg (anti-nausea) - 3 times daily
- Electrolyte solutions for hydration
- Ibuprofen 400mg if fever present

**When to See Doctor**:
- Vomiting >24 hours
- Blood in vomit
- Severe abdominal pain

⚠️ This is NOT professional medical advice. Consult a doctor for diagnosis."

/-- The full prompt sent upstream: system prompt, the user's stripped input,
and the closing instruction. -/
def full_message (user_input : String) : String :=
  system_prompt ++ "\n\nUser Symptom: " ++ user_input ++
    "\n\nProvide response in the exact format above. Be VERY BRIEF and CONCISE."

/-- The body of the outer `try` of `ai_doctor` (lines 85-187): everything a
POST runs after the method check.  A `.error` result is an exception that
escapes to the outer `except` boundary.  `parse` is the outcome of
`request.get_json()`: the parsed value, or the exception it raised. -/
def ai_doctor_try (model : Option GenModel) (parse : Except PyError Json)
    (now : String) : Except PyError HandlerResult :=
  match parse with
  | .error e => .error e
  | .ok data =>
    if data.truthy = false then
      .ok ⟨⟨400, .obj [("error", .str "No JSON data provided")]⟩, []⟩
    else
      match dictGet data "message" (.str "") with
      | .error e => .error e
      | .ok raw =>
        match pyStrip raw with
        | .error e => .error e
        | .ok user_input =>
          if user_input = "" then
            .ok ⟨⟨400, .obj [("error", .str "Message cannot be empty")]⟩, []⟩
          else
            match model with
            | none =>
                .ok ⟨⟨500, .obj
                  [("error", .str "AI model not initialized. Check your API key and try restarting."),
                   ("success", .bool false)]⟩, []⟩
            | some m =>
                let fm := full_message user_input
                match m.generate fm with
                | .raised msg =>
                    .ok ⟨⟨500, .obj [("error", .str ("API Error: " ++ pySlice100 msg)),
                                     ("success", .bool false)]⟩, [fm]⟩
                | .returned text =>
                    match text with
                    | some t =>
                        if t ≠ "" then
                          .ok ⟨⟨200, .obj [("success", .bool true), ("response", .str t),
                                           ("timestamp", .str now)]⟩, [fm]⟩
                        else
                          .ok ⟨⟨500, .obj
                            [("error", .str "AI model returned empty response. Try again."),
                             ("success", .bool false)]⟩, [fm]⟩
                    | none =>
                        .ok ⟨⟨500, .obj
                          [("error", .str "AI model returned empty response. Try again."),
                           ("success", .bool false)]⟩, [fm]⟩

/-- The AI endpoint (`/api/ai-doctor`): the OPTIONS short-circuit, then the
body wrapped by the outer exception boundary, which maps any raised
exception to a 500 with the first 100 characters of its text. -/
def ai_doctor (model : Option GenModel) (method : Method)
    (parse : Except PyError Json) (now : String) : HandlerResult :=
  match method with
  | .OPTIONS => ⟨⟨200, .obj [("status", .str "ok")]⟩, []⟩
  | .POST =>
    match ai_doctor_try model parse now with
    | .ok r => r
    | .error e =>
        ⟨⟨500, .obj [("error", .str ("Server error: " ++ pySlice100 e.msg)),
                     ("success", .bool false)]⟩, []⟩

/-- The fixed specialist directory. -/
def specialists : List Json :=
  [.obj [("id", .num 1), ("name", .str "Dr. Rajesh Kumar"),
         ("specialty", .str "Cardiology"), ("rating", .num 4.8)],
   .obj [("id", .num 2), ("name", .str "Dr. Priya Sharma"),
         ("specialty", .str "Dermatology"), ("rating", .num 4.7)],
   .obj [("id", .num 3), ("name", .str "Dr. Amit Patel"),
         ("specialty", .str "Neurology"), ("rating", .num 4.9)],
   .obj [("id", .num 4), ("name", .str "Dr. Anjali Singh"),
         ("specialty", .str "Pediatrics"), ("rating", .num 4.6)],
   .obj [("id", .num 5), ("name", .str "Dr. Vikram Gupta"),
         ("specialty", .str "Orthopedics"), ("rating", .num 4.8)]]

/-- The specialists endpoint (`/api/specialists`): a constant response, so it
is identical on every call. -/
def get_specialists : HttpResponse :=
  ⟨200, .obj [("success", .bool true), ("specialists", .arr specialists)]⟩

/-- The ids of the returned specialist entries, in order. -/
def specialistIds : List (Option Json) :=
  specialists.map (fun j => j.field "id")

/-- A 150-character exception text, for exercising the truncation boundary. -/
def longErrText : String := String.mk (List.replicate 150 'e')

/-- A constructor behaviour that succeeds on every candidate name. -/
def allOkConstruct : String → Except String GenModel :=
  fun n => .ok ⟨n, fun _ => .returned none⟩

/-! ## Helper lemmas -/

/-- A JSON object with a successful key lookup is non-empty, hence truthy. -/
theorem truthy_obj_of_lookup {kvs : List (String × Json)} {k : String} {j : Json}
    (h : List.lookup k kvs = some j) : Json.truthy (.obj kvs) = true := by
  cases kvs with
  | nil => simp [List.lookup] at h
  | cons hd tl => rfl

/-- `pySlice100` keeps exactly the first `min 100 (length)` characters. -/
theorem pySlice100_length (s : String) : (pySlice100 s).length = min 100 s.length := by
  show (s.data.take 100).length = min 100 s.length
  rw [List.length_take]
  rfl

/-! ## Claims -/

/-- C7: an OPTIONS request to `/api/ai-doctor` is answered `200 {status: "ok"}`
immediately, for every model state and every body-parse outcome (so the body
is never consulted), and no prompt is sent upstream. -/
theorem options_short_circuit (model : Option GenModel) (parse : Except PyError Json)
    (now : String) :
    ai_doctor model Method.OPTIONS parse now = ⟨⟨200, .obj [("status", .str "ok")]⟩, []⟩ := rfl

/-- C8: `/api/specialists` is a constant endpoint returning 200 with
`success: true` and exactly the 5 fixed entries whose ids are 1 through 5. -/
theorem specialists_fixed_five :
    get_specialists.status = 200 ∧
    get_specialists.body.field "success" = some (.bool true) ∧
    get_specialists.body.field "specialists" = some (.arr specialists) ∧
    specialists.length = 5 ∧
    specialistIds = [some (.num 1), some (.num 2), some (.num 3), some (.num 4), some (.num 5)] :=
  ⟨rfl, rfl, rfl, rfl, rfl⟩

/-- C10: with `GEMINI_API_KEY` set to the empty string, startup never calls
`genai.configure` (the key counts as absent and the missing-key error is
logged), yet `/api/health` reports `gemini_configured: true`, because the
health check only tests that the key is not `None`. -/
theorem empty_key_unconfigured_but_reported (construct : String → Except String GenModel)
    (model : Option GenModel) (now : String) :
    (startup (some "") construct).configured = false ∧
    (startup (some "") construct).keyErrorLogged = true ∧
    (health_check (some "") model now).status = 200 ∧
    (health_check (some "") model now).body.field "gemini_configured" = some (.bool true) :=
  ⟨rfl, rfl, rfl, rfl⟩

/-- C1 counterexample: with no model handle and an invalid (null/absent) body,
the endpoint returns 400 "No JSON data provided", not the 500
"AI model not initialized" response the claim predicts. -/
theorem no_model_invalid_body_400 :
    (ai_doctor none Method.POST (Except.ok Json.null) "2024-01-01T00:00:00").resp =
      ⟨400, .obj [("error", .str "No JSON data provided")]⟩ ∧
    (ai_doctor none Method.POST (Except.ok Json.null) "2024-01-01T00:00:00").resp.status ≠ 500 :=
  ⟨rfl, by decide⟩

/-- C1 (amended): when the request passes validation (a JSON object whose
`message` field is a string with non-empty strip) and no model handle is
available, the endpoint returns 500 with the "AI model not initialized"
message. -/
theorem no_model_500_after_validation (kvs : List (String × Json)) (s now : String)
    (hlook : List.lookup "message" kvs = some (Json.str s))
    (hne : stripStr s ≠ "") :
    ai_doctor none Method.POST (Except.ok (Json.obj kvs)) now =
      ⟨⟨500, .obj [("error", .str "AI model not initialized. Check your API key and try restarting."),
                   ("success", .bool false)]⟩, []⟩ := by
  have ht : Json.truthy (.obj kvs) = true := truthy_obj_of_lookup hlook
  simp [ai_doctor, ai_doctor_try, dictGet, pyStrip, ht, hlook, hne]

/-- C1 witness: a concrete valid request with no model. -/
theorem no_model_500_after_validation_witness :
    List.lookup "message" [("message", Json.str "fever")] = some (Json.str "fever") ∧
    stripStr "fever" ≠ "" ∧
    ai_doctor none Method.POST (Except.ok (Json.obj [("message", Json.str "fever")])) "t" =
      ⟨⟨500, .obj [("error", .str "AI model not initialized. Check your API key and try restarting."),
                   ("success", .bool false)]⟩, []⟩ :=
  ⟨rfl, by decide, no_model_500_after_validation _ "fever" "t" rfl (by decide)⟩

/-- C3 counterexample: a body whose JSON parsing raises is reported as 500
"Server error: ...", not as 400 "No JSON data provided". -/
theorem unparseable_body_500 :
    (ai_doctor none Method.POST
        (Except.error ⟨"400 Bad Request: Failed to decode JSON object"⟩) "t").resp =
      ⟨500, .obj [("error", .str "Server error: 400 Bad Request: Failed to decode JSON object"),
                  ("success", .bool false)]⟩ ∧
    (ai_doctor none Method.POST
        (Except.error ⟨"400 Bad Request: Failed to decode JSON object"⟩) "t").resp.status ≠ 400 :=
  ⟨rfl, by decide⟩

/-- C3 (amended): a body parsed to a falsy JSON value (including `null`, i.e.
an absent body under a lenient parser) yields 400 "No JSON data provided"; a
body whose parsing raises escapes to the outer boundary and yields 500
"Server error: " plus the truncated exception text. -/
theorem falsy_or_unparseable_body (model : Option GenModel) (now : String) :
    (∀ data : Json, data.truthy = false →
      ai_doctor model Method.POST (Except.ok data) now =
        ⟨⟨400, .obj [("error", .str "No JSON data provided")]⟩, []⟩) ∧
    (∀ e : PyError, ai_doctor model Method.POST (Except.error e) now =
        ⟨⟨500, .obj [("error", .str ("Server error: " ++ pySlice100 e.msg)),
                     ("success", .bool false)]⟩, []⟩) := by
  constructor
  · intro data h
    simp [ai_doctor, ai_doctor_try, h]
  · intro e
    rfl

/-- C3 witness: a falsy body and a parse exception, both concrete. -/
theorem falsy_or_unparseable_body_witness :
    Json.truthy (Json.obj []) = false ∧
    ai_doctor none Method.POST (Except.ok (Json.obj [])) "t" =
      ⟨⟨400, .obj [("error", .str "No JSON data provided")]⟩, []⟩ ∧
    ai_doctor none Method.POST (Except.error ⟨"boom"⟩) "t" =
      ⟨⟨500, .obj [("error", .str ("Server error: " ++ pySlice100 (PyError.mk "boom").msg)),
                   ("success", .bool false)]⟩, []⟩ :=
  ⟨rfl, (falsy_or_unparseable_body none "t").1 (Json.obj []) rfl,
    (falsy_or_unparseable_body none "t").2 ⟨"boom"⟩⟩

/-- C5 counterexample: the empty JSON object has a missing `message` field,
yet (being falsy) it is answered 400 "No JSON data provided", not
"Message cannot be empty". -/
theorem empty_object_no_json_error :
    (ai_doctor none Method.POST (Except.ok (Json.obj [])) "t").resp =
      ⟨400, .obj [("error", .str "No JSON data provided")]⟩ ∧
    "No JSON data provided" ≠ "Message cannot be empty" :=
  ⟨rfl, by decide⟩

/-- C5 (amended): for a non-empty JSON object whose `message` field is
missing, or is a string that strips to empty, the endpoint returns 400
"Message cannot be empty" (for every model state). -/
theorem empty_message_400 (model : Option GenModel) (now : String)
    (kvs : List (String × Json)) (hne : kvs ≠ [])
    (hmsg : List.lookup "message" kvs = none ∨
            ∃ s, List.lookup "message" kvs = some (Json.str s) ∧ stripStr s = "") :
    ai_doctor model Method.POST (Except.ok (Json.obj kvs)) now =
      ⟨⟨400, .obj [("error", .str "Message cannot be empty")]⟩, []⟩ := by
  have ht : Json.truthy (.obj kvs) = true := by
    cases kvs with
    | nil => exact absurd rfl hne
    | cons hd tl => rfl
  rcases hmsg with hnone | ⟨s, hsome, hstrip⟩
  · simp [ai_doctor, ai_doctor_try, dictGet, pyStrip, ht, hnone, stripStr]
  · simp [ai_doctor, ai_doctor_try, dictGet, pyStrip, ht, hsome, hstrip]

/-- C5 witness: a whitespace-only message. -/
theorem empty_message_400_witness :
    ([("message", Json.str " \n ")] : List (String × Json)) ≠ [] ∧
    stripStr " \n " = "" ∧
    ai_doctor none Method.POST (Except.ok (Json.obj [("message", Json.str " \n ")])) "t" =
      ⟨⟨400, .obj [("error", .str "Message cannot be empty")]⟩, []⟩ :=
  ⟨List.cons_ne_nil _ _, by decide,
    empty_message_400 none "t" _ (List.cons_ne_nil _ _) (Or.inr ⟨" \n ", rfl, by decide⟩)⟩

/-- C4: for a message that is a non-empty string after stripping, a model
handle whose completion call returns non-empty text, the endpoint returns 200
with `success: true`, the upstream text verbatim (untruncated) as `response`,
and the timestamp; exactly one prompt is sent upstream. -/
theorem success_verbatim (kvs : List (String × Json)) (s mname now text : String)
    (gen : String → GenResult)
    (hlook : List.lookup "message" kvs = some (Json.str s))
    (hne : stripStr s ≠ "")
    (hgen : gen (full_message (stripStr s)) = .returned (some text))
    (htext : text ≠ "") :
    ai_doctor (some ⟨mname, gen⟩) Method.POST (Except.ok (Json.obj kvs)) now =
      ⟨⟨200, .obj [("success", .bool true), ("response", .str text),
                   ("timestamp", .str now)]⟩, [full_message (stripStr s)]⟩ := by
  have ht : Json.truthy (.obj kvs) = true := truthy_obj_of_lookup hlook
  simp [ai_doctor, ai_doctor_try, dictGet, pyStrip, ht, hlook, hne, hgen, htext]

/-- C4 witness: a concrete successful round trip. -/
theorem success_verbatim_witness :
    List.lookup "message" [("message", Json.str " fever ")] = some (Json.str " fever ") ∧
    stripStr " fever " ≠ "" ∧
    (fun _ : String => GenResult.returned (some "Rest and hydrate."))
        (full_message (stripStr " fever ")) = .returned (some "Rest and hydrate.") ∧
    "Rest and hydrate." ≠ "" ∧
    ai_doctor (some ⟨"gemini-2.0-flash-exp", fun _ => GenResult.returned (some "Rest and hydrate.")⟩)
        Method.POST (Except.ok (Json.obj [("message", Json.str " fever ")])) "t" =
      ⟨⟨200, .obj [("success", .bool true), ("response", .str "Rest and hydrate."),
                   ("timestamp", .str "t")]⟩, [full_message (stripStr " fever ")]⟩ :=
  ⟨rfl, by decide, rfl, by decide,
    success_verbatim _ " fever " "gemini-2.0-flash-exp" "t" "Rest and hydrate." _
      rfl (by decide) rfl (by decide)⟩

/-- C6: every exception surfaced to the client is truncated to its first 100
characters: an upstream (completion-call) exception becomes
`"API Error: " ++ first 100 chars`, and any exception reaching the outer
boundary becomes `"Server error: " ++ first 100 chars`; the kept excerpt has
length `min 100 (full length)`, so exactly 100 when the text is longer. -/
theorem error_text_truncated_100 :
    (∀ (kvs : List (String × Json)) (s mname msg now : String) (gen : String → GenResult),
      List.lookup "message" kvs = some (Json.str s) → stripStr s ≠ "" →
      gen (full_message (stripStr s)) = .raised msg →
      ai_doctor (some ⟨mname, gen⟩) Method.POST (Except.ok (Json.obj kvs)) now =
        ⟨⟨500, .obj [("error", .str ("API Error: " ++ pySlice100 msg)),
                     ("success", .bool false)]⟩, [full_message (stripStr s)]⟩ ∧
      (pySlice100 msg).length = min 100 msg.length) ∧
    (∀ (model : Option GenModel) (now : String) (e : PyError),
      ai_doctor model Method.POST (Except.error e) now =
        ⟨⟨500, .obj [("error", .str ("Server error: " ++ pySlice100 e.msg)),
                     ("success", .bool false)]⟩, []⟩ ∧
      (pySlice100 e.msg).length = min 100 e.msg.length) := by
  constructor
  · intro kvs s mname msg now gen hlook hne hgen
    have ht : Json.truthy (.obj kvs) = true := truthy_obj_of_lookup hlook
    exact ⟨by simp [ai_doctor, ai_doctor_try, dictGet, pyStrip, ht, hlook, hne, hgen],
           pySlice100_length msg⟩
  · intro model now e
    exact ⟨rfl, pySlice100_length e.msg⟩

set_option maxRecDepth 4000 in
/-- C6 witness: a 150-character upstream error is cut at exactly 100
characters, and a parse exception takes the outer "Server error" form. -/
theorem error_text_truncated_100_witness :
    List.lookup "message" [("message", Json.str "hi")] = some (Json.str "hi") ∧
    stripStr "hi" ≠ "" ∧
    (ai_doctor (some ⟨"m", fun _ => GenResult.raised longErrText⟩) Method.POST
        (Except.ok (Json.obj [("message", Json.str "hi")])) "t" =
      ⟨⟨500, .obj [("error", .str ("API Error: " ++ pySlice100 longErrText)),
                   ("success", .bool false)]⟩, [full_message (stripStr "hi")]⟩ ∧
      (pySlice100 longErrText).length = min 100 longErrText.length) ∧
    (pySlice100 longErrText).length = 100 ∧ longErrText.length = 150 ∧
    (ai_doctor none Method.POST (Except.error ⟨"boom"⟩) "t" =
      ⟨⟨500, .obj [("error", .str ("Server error: " ++ pySlice100 (PyError.mk "boom").msg)),
                   ("success", .bool false)]⟩, []⟩ ∧
      (pySlice100 (PyError.mk "boom").msg).length = min 100 (PyError.mk "boom").msg.length) :=
  ⟨rfl, by decide,
   error_text_truncated_100.1 _ "hi" "m" longErrText "t" _ rfl (by decide) rfl,
   by decide, by decide,
   error_text_truncated_100.2 none "t" ⟨"boom"⟩⟩

/-- C9: a `message` field holding a non-string value makes `.strip()` raise
`AttributeError`, which the outer boundary reports as 500 with a message
beginning "Server error: " — not as a 400 validation error. -/
theorem nonstring_message_server_error (model : Option GenModel) (now : String)
    (kvs : List (String × Json)) (j : Json)
    (hlook : List.lookup "message" kvs = some j) (hstr : j.isStr = false) :
    ai_doctor model Method.POST (Except.ok (Json.obj kvs)) now =
      ⟨⟨500, .obj [("error", .str ("Server error: " ++
          pySlice100 ("'" ++ j.typeName ++ "' object has no attribute 'strip'"))),
                   ("success", .bool false)]⟩, []⟩ ∧
    (ai_doctor model Method.POST (Except.ok (Json.obj kvs)) now).resp.status ≠ 400 := by
  have ht : Json.truthy (.obj kvs) = true := truthy_obj_of_lookup hlook
  have hmain : ai_doctor model Method.POST (Except.ok (Json.obj kvs)) now =
      ⟨⟨500, .obj [("error", .str ("Server error: " ++
          pySlice100 ("'" ++ j.typeName ++ "' object has no attribute 'strip'"))),
                   ("success", .bool false)]⟩, []⟩ := by
    cases j with
    | str s => simp [Json.isStr] at hstr
    | null => simp [ai_doctor, ai_doctor_try, dictGet, pyStrip, ht, hlook, Json.typeName]
    | bool b => simp [ai_doctor, ai_doctor_try, dictGet, pyStrip, ht, hlook, Json.typeName]
    | num q => simp [ai_doctor, ai_doctor_try, dictGet, pyStrip, ht, hlook, Json.typeName]
    | arr elems => simp [ai_doctor, ai_doctor_try, dictGet, pyStrip, ht, hlook, Json.typeName]
    | obj inner => simp [ai_doctor, ai_doctor_try, dictGet, pyStrip, ht, hlook, Json.typeName]
  refine ⟨hmain, ?_⟩
  rw [hmain]
  simp

/-- C9 witness: `message` bound to the number 3. -/
theorem nonstring_message_server_error_witness :
    List.lookup "message" [("message", Json.num 3)] = some (Json.num 3) ∧
    Json.isStr (Json.num 3) = false ∧
    (ai_doctor none Method.POST (Except.ok (Json.obj [("message", Json.num 3)])) "t" =
      ⟨⟨500, .obj [("error", .str ("Server error: " ++
          pySlice100 ("'" ++ (Json.num 3).typeName ++ "' object has no attribute 'strip'"))),
                   ("success", .bool false)]⟩, []⟩ ∧
     (ai_doctor none Method.POST (Except.ok (Json.obj [("message", Json.num 3)])) "t").resp.status
       ≠ 400) :=
  ⟨rfl, rfl, nonstring_message_server_error none "t" _ _ rfl rfl⟩

/-- C2 counterexample: with no API key at all, the startup candidate loop
still runs — it attempts the first candidate name and, if construction
succeeds, the model handle is set rather than remaining unset. -/
theorem startup_attempts_without_key :
    (startup none allOkConstruct).attempted = ["gemini-2.0-flash-exp"] ∧
    (startup none allOkConstruct).model.isSome = true ∧
    (startup none allOkConstruct).configured = false :=
  ⟨rfl, rfl, rfl⟩

/-- C2 (amended): when the key is absent only the `genai.configure` step is
skipped; the model handle and the attempted candidate list are computed by
the fallback loop independently of the key, and at least one candidate is
always attempted. -/
theorem startup_loop_independent_of_key (key alt : Option String)
    (construct : String → Except String GenModel) :
    (startup key construct).configured = keyTruthy key ∧
    (startup key construct).model = (startup alt construct).model ∧
    (startup key construct).attempted = (startup alt construct).attempted ∧
    (startup key construct).attempted ≠ [] := by
  refine ⟨rfl, rfl, rfl, ?_⟩
  show (initLoop construct models_to_try).2 ≠ []
  cases h : construct "gemini-2.0-flash-exp" <;>
    simp [models_to_try, initLoop, h]
